import Mathlib

/-!
Verification of the triologue-agent-gateway routing, delivery and session
layer.  The TypeScript sources are shallowly embedded: each stateful module
(loop guard, SSE session registry, idempotency cache, read tracker effects)
becomes a pure function over an explicit state; times are integers
(milliseconds, as produced by Date.now(), or seconds where Redis TTLs are
involved); JavaScript Maps become association lists looked up with
List.lookup (most recent binding first).
-/

namespace Gateway

/-! ## Basic data model (src/types.ts, src/auth.ts) -/

inductive Trust where
  | standard
  | elevated
deriving DecidableEq, Repr

inductive SenderType where
  | human
  | ai
deriving DecidableEq, Repr

inductive RecvMode where
  | mentions
  | all
deriving DecidableEq, Repr

inductive Delivery where
  | webhook
  | openclawInject
deriving DecidableEq, Repr

inductive ConnType where
  | webhook
  | websocket
  | both
deriving DecidableEq, Repr

/-- An agent as produced by buildTokenIndex in src/auth.ts. -/
structure AgentInfo where
  name : String
  userId : String
  username : String
  mentionKey : String
  webhookUrl : Option String
  webhookSecret : Option String
  trustLevel : Trust
  receiveMode : RecvMode
  delivery : Delivery
  connectionType : ConnType
deriving DecidableEq, Repr

/-- A normalized inbound message as handed to bridge.onMessage. -/
structure InboundMsg where
  id : String
  content : String
  senderUsername : String
  senderId : String
  senderType : SenderType
  roomId : String
  roomName : String
  timestamp : String
deriving DecidableEq, Repr

/-! ## Loop guard (src/loop-guard.ts)

The module-level Maps lastExchange and exchangeCount become explicit state;
Date.now() becomes the parameter now.  shouldDeliver returns the boolean
decision together with the state after the call. -/

/-- State of the two module-level Maps in src/loop-guard.ts. -/
structure GuardState where
  lastExchange : List (String × Int)
  exchangeCount : List (String × (Nat × Int))
deriving DecidableEq, Repr

/-- Fresh module state: both Maps empty. -/
def initGuardState : GuardState := ⟨[], []⟩

/-- Code-unit-order comparison of strings, as used by Array.prototype.sort. -/
def charListLT : List Char → List Char → Bool
  | [], [] => false
  | [], _ :: _ => true
  | _ :: _, [] => false
  | a :: as, b :: bs => a.toNat < b.toNat || (a.toNat = b.toNat && charListLT as bs)

/-- The unordered pair key `[senderId, targetId].sort().join('↔')`. -/
def pairKey (senderId targetId : String) : String :=
  if charListLT targetId.toList senderId.toList then targetId ++ "↔" ++ senderId
  else senderId ++ "↔" ++ targetId

/-- The local variable ex of shouldDeliver right after
`let ex = exchangeCount.get(pair); if (!ex || now > ex.reset) ex = ...`. -/
def effectiveEx (st : GuardState) (pair : String) (now : Int) : Nat × Int :=
  match st.exchangeCount.lookup pair with
  | some e => if now > e.2 then (0, now + 60000) else e
  | none => (0, now + 60000)

/-- shouldDeliver from src/loop-guard.ts.  The first parameter is unused by
the implementation (it is `_targetTrust` in the source). -/
def shouldDeliver (st : GuardState) (_targetTrust : Trust) (senderIsAgent : Bool)
    (senderId targetId : String) (now : Int) : Bool × GuardState :=
  if senderId = targetId then (false, st)
  else if senderIsAgent then
    if now - ((st.lastExchange.lookup (pairKey senderId targetId)).getD 0) < 30000 then
      (false, st)
    else
      if (effectiveEx st (pairKey senderId targetId) now).1 ≥ 5 then (false, st)
      else (true,
        { lastExchange := (pairKey senderId targetId, now) :: st.lastExchange,
          exchangeCount := (pairKey senderId targetId,
              ((effectiveEx st (pairKey senderId targetId) now).1 + 1,
               (effectiveEx st (pairKey senderId targetId) now).2)) ::
            st.exchangeCount })
  else (true, st)

/-- The reach-and-fire condition of the `if (ex.count >= 5) return false`
branch of shouldDeliver: the call gets past the self-loop check, the
agent-sender check and the 30 s cooldown, and then finds a counter ≥ 5. -/
def rateCapHit (st : GuardState) (senderIsAgent : Bool)
    (senderId targetId : String) (now : Int) : Bool :=
  senderId ≠ targetId && senderIsAgent &&
    !(now - ((st.lastExchange.lookup (pairKey senderId targetId)).getD 0) < 30000) &&
    (effectiveEx st (pairKey senderId targetId) now).1 ≥ 5

/-- Guard states reachable from module load by any sequence of calls. -/
inductive GuardReachable : GuardState → Prop where
  | init : GuardReachable initGuardState
  | step (st : GuardState) (t : Trust) (a : Bool) (s tg : String) (now : Int) :
      GuardReachable st → GuardReachable (shouldDeliver st t a s tg now).2

/-- Per-pair invariant of the guard maps: a counter entry (c, r) was written by
an allowed exchange, so the pair also has a last-exchange time l, the counter is
at least 1, l lies inside the counter window ending at r, and the c counted
exchanges, each ≥ 30 s apart, push l at least 30000·(c−1) past the window
start r − 60000. -/
def guardPairInv (st : GuardState) (k : String) : Prop :=
  ∀ c r, st.exchangeCount.lookup k = some (c, r) →
    ∃ l, st.lastExchange.lookup k = some l ∧ 1 ≤ c ∧
      r - 60000 + 30000 * ((c : Int) - 1) ≤ l ∧ l ≤ r

def GuardInv (st : GuardState) : Prop := ∀ k, guardPairInv st k

theorem lookup_cons_eq_ite {β : Type} (a k : String) (v : β) (l : List (String × β)) :
    ((k, v) :: l).lookup a = if a = k then some v else l.lookup a := by
  by_cases h : a = k
  · simp [List.lookup, h]
  · have hb : (a == k) = false := beq_eq_false_iff_ne.mpr h
    simp [List.lookup, hb, h]

theorem guardInv_init : GuardInv initGuardState := by
  intro k c r hcr
  simp [initGuardState, List.lookup] at hcr

theorem guardInv_step (st : GuardState) (t : Trust) (a : Bool) (s tg : String)
    (now : Int) (h : GuardInv st) : GuardInv (shouldDeliver st t a s tg now).2 := by
  unfold shouldDeliver
  split
  · exact h
  split
  · split
    · exact h
    · split
      · exact h
      · rename_i hsne hagent hcool hcap
        intro k c r hcr
        rw [lookup_cons_eq_ite] at hcr
        by_cases hk : k = pairKey s tg
        · rw [if_pos hk] at hcr
          injection hcr with hpair
          refine ⟨now, ?_, ?_, ?_, ?_⟩
          · simp only [lookup_cons_eq_ite, if_pos hk]
          · have : c = (effectiveEx st (pairKey s tg) now).1 + 1 := by
              have := congrArg Prod.fst hpair; simpa using this.symm
            omega
          · have hc : c = (effectiveEx st (pairKey s tg) now).1 + 1 := by
              have := congrArg Prod.fst hpair; simpa using this.symm
            have hr : r = (effectiveEx st (pairKey s tg) now).2 := by
              have := congrArg Prod.snd hpair; simpa using this.symm
            unfold effectiveEx at hc hr
            revert hc hr
            cases hex : st.exchangeCount.lookup (pairKey s tg) with
            | none =>
              intro hc hr
              simp at hc hr
              subst hc hr
              push_cast
              linarith
            | some e =>
              by_cases hfresh : now > e.2
              · intro hc hr
                simp [hfresh] at hc hr
                subst hc hr
                push_cast
                linarith
              · intro hc hr
                simp [hfresh] at hc hr
                obtain ⟨l0, hl0, hc0, hlow, hhigh⟩ := h (pairKey s tg) e.1 e.2 (by rw [hex])
                rw [hl0] at hcool
                simp only [Option.getD_some] at hcool
                have hcool' : (30000 : Int) ≤ now - l0 := by omega
                subst hc hr
                have : ((e.1 : Int)) ≥ 1 := by exact_mod_cast hc0
                push_cast
                linarith
          · have hr : r = (effectiveEx st (pairKey s tg) now).2 := by
              have := congrArg Prod.snd hpair; simpa using this.symm
            unfold effectiveEx at hr
            revert hr
            cases hex : st.exchangeCount.lookup (pairKey s tg) with
            | none => intro hr; simp at hr; subst hr; linarith
            | some e =>
              by_cases hfresh : now > e.2
              · intro hr; simp [hfresh] at hr; subst hr; linarith
              · intro hr; simp [hfresh] at hr; subst hr
                exact le_of_not_lt hfresh
        · rw [if_neg hk] at hcr
          obtain ⟨l, hl, h1, h2, h3⟩ := h k c r hcr
          exact ⟨l, by simp only [lookup_cons_eq_ite, if_neg hk]; exact hl, h1, h2, h3⟩
  · exact h

theorem guardInv_reachable (st : GuardState) (h : GuardReachable st) : GuardInv st := by
  induction h with
  | init => exact guardInv_init
  | step st t a s tg now _ ih => exact guardInv_step st t a s tg now ih

/-- The rate-cap branch condition as a proposition: a call with distinct ids
from an AI sender passes the 30 s cooldown and then sees a counter ≥ 5. -/
def RateCapHit (st : GuardState) (senderIsAgent : Bool)
    (senderId targetId : String) (now : Int) : Prop :=
  senderId ≠ targetId ∧ senderIsAgent = true ∧
    ¬(now - ((st.lastExchange.lookup (pairKey senderId targetId)).getD 0) < 30000) ∧
    5 ≤ (effectiveEx st (pairKey senderId targetId) now).1

theorem rateCap_not_hit_of_inv (st : GuardState) (h : GuardInv st)
    (a : Bool) (s tg : String) (now : Int) : ¬ RateCapHit st a s tg now := by
  rintro ⟨-, -, hcool, hcap⟩
  unfold effectiveEx at hcap
  revert hcap
  cases hex : st.exchangeCount.lookup (pairKey s tg) with
  | none => intro hcap; simp at hcap
  | some e =>
    by_cases hfresh : now > e.2
    · intro hcap; simp [hfresh] at hcap
    · intro hcap
      simp [hfresh] at hcap
      obtain ⟨l0, hl0, hc0, hlow, hhigh⟩ := h (pairKey s tg) e.1 e.2 (by rw [hex])
      rw [hl0] at hcool
      simp only [Option.getD_some] at hcool
      have h5 : (5 : Int) ≤ (e.1 : Int) := by exact_mod_cast hcap
      have hnr : now ≤ e.2 := le_of_not_lt hfresh
      linarith

/-! ## Mention detection (src/index.ts)

`msg.content.toLowerCase().includes('@' + key)` becomes a substring test on
char lists; toLowerCase is the per-character lowercase map and the needle is
built from the raw (not lowered) mention key / username, as in the source. -/

def charsPrefix : List Char → List Char → Bool
  | [], _ => true
  | _ :: _, [] => false
  | a :: as, b :: bs => a = b && charsPrefix as bs

def charsSub (needle : List Char) : List Char → Bool
  | [] => needle.isEmpty
  | c :: rest => charsPrefix needle (c :: rest) || charsSub needle rest

def lowerStr (s : String) : List Char := s.toList.map Char.toLower

/-- `content.toLowerCase().includes('@'+mentionKey) ||
content.toLowerCase().includes('@'+username)`. -/
def isMentioned (content : String) (agent : AgentInfo) : Bool :=
  charsSub ('@' :: agent.mentionKey.toList) (lowerStr content) ||
    charsSub ('@' :: agent.username.toList) (lowerStr content)

/-! ## Router per-candidate decisions (bridge.onMessage in src/index.ts)

The handler runs three loops: over connected WebSocket clients, over all
agents with a live SSE stream, and over getWebhookAgents().  Each loop body
is embedded as a function of the candidate, the message and the loop-guard
state, returning the delivery outcome, whether the loop guard was consulted,
the markMessageSeen effect, and the guard state after the body. -/

inductive Transport where
  | ws
  | sse
  | inject
  | webhook
deriving DecidableEq, Repr

/-- Outcome of one loop body for one candidate. -/
structure RouteOutcome where
  delivered : Bool
  transport : Option Transport
  guardConsulted : Bool
  /-- A markMessageSeen(agentId, roomId, messageId) call, if any. -/
  cursorUpdate : Option (String × String × String)
  guardState : GuardState
deriving Repr

/-- Shorthand for a loop body that skips the candidate without side effects. -/
def skipOutcome (st : GuardState) (gc : Bool) : RouteOutcome :=
  { delivered := false, transport := none, guardConsulted := gc,
    cursorUpdate := none, guardState := st }

/-- The forwarding tail of the WebSocket-client loop body: openclaw-inject
delivery (with markMessageSeen when mentioned) or a plain socket write. -/
def wsForward (msg : InboundMsg) (agent : AgentInfo) (mentioned gc : Bool)
    (st : GuardState) : RouteOutcome :=
  if agent.delivery = Delivery.openclawInject then
    { delivered := true, transport := some Transport.inject, guardConsulted := gc,
      cursorUpdate :=
        if mentioned then some (agent.userId, msg.roomId, msg.id) else none,
      guardState := st }
  else
    { delivered := true, transport := some Transport.ws, guardConsulted := gc,
      cursorUpdate := none, guardState := st }

/-- WebSocket-client loop body (src/index.ts lines 75–134).  The short-circuit
`!mentioned && !shouldDeliver(...)` is spelled as a nested if on mentioned. -/
def wsCandidate (st : GuardState) (msg : InboundMsg) (agent : AgentInfo)
    (now : Int) : RouteOutcome :=
  if agent.username = msg.senderUsername then skipOutcome st false
  else if agent.userId = msg.senderId then skipOutcome st false
  else if agent.receiveMode = RecvMode.mentions ∧ isMentioned msg.content agent = false
    then skipOutcome st false
  else if isMentioned msg.content agent = false then
    if (shouldDeliver st agent.trustLevel (msg.senderType = SenderType.ai)
        msg.senderUsername agent.username now).1 = false then
      skipOutcome (shouldDeliver st agent.trustLevel (msg.senderType = SenderType.ai)
        msg.senderUsername agent.username now).2 true
    else
      wsForward msg agent (isMentioned msg.content agent) true
        (shouldDeliver st agent.trustLevel (msg.senderType = SenderType.ai)
          msg.senderUsername agent.username now).2
  else wsForward msg agent (isMentioned msg.content agent) false st

/-- SSE loop body (src/index.ts lines 137–158); hasStream is
hasSSEClient(agent.userId), wsConnected is clients.has(agent.userId). -/
def sseCandidate (st : GuardState) (msg : InboundMsg) (agent : AgentInfo)
    (hasStream wsConnected : Bool) (now : Int) : RouteOutcome :=
  if hasStream = false then skipOutcome st false
  else if agent.username = msg.senderUsername then skipOutcome st false
  else if agent.userId = msg.senderId then skipOutcome st false
  else if wsConnected = true then skipOutcome st false
  else if agent.receiveMode = RecvMode.mentions ∧ isMentioned msg.content agent = false
    then skipOutcome st false
  else if isMentioned msg.content agent = false then
    if (shouldDeliver st agent.trustLevel (msg.senderType = SenderType.ai)
        msg.senderUsername agent.username now).1 = false then
      skipOutcome (shouldDeliver st agent.trustLevel (msg.senderType = SenderType.ai)
        msg.senderUsername agent.username now).2 true
    else
      { delivered := true, transport := some Transport.sse, guardConsulted := true,
        cursorUpdate := none,
        guardState := (shouldDeliver st agent.trustLevel
          (msg.senderType = SenderType.ai) msg.senderUsername agent.username now).2 }
  else
    { delivered := true, transport := some Transport.sse, guardConsulted := false,
      cursorUpdate := none, guardState := st }

/-- Webhook/openclaw-inject loop body (src/index.ts lines 161–243).  Note that
shouldDeliver is invoked before the mention check, unconditionally. -/
def whCandidate (st : GuardState) (msg : InboundMsg) (agent : AgentInfo)
    (wsConnected : Bool) (now : Int) : RouteOutcome :=
  if agent.username = msg.senderUsername then skipOutcome st false
  else
    match shouldDeliver st agent.trustLevel (msg.senderType = SenderType.ai)
      msg.senderUsername agent.username now with
    | (allow, st') =>
      if allow = false then skipOutcome st' true
      else if isMentioned msg.content agent = false then skipOutcome st' true
      else if wsConnected = true then skipOutcome st' true
      else if agent.delivery = Delivery.openclawInject then
        { delivered := true, transport := some Transport.inject,
          guardConsulted := true,
          cursorUpdate := some (agent.userId, msg.roomId, msg.id),
          guardState := st' }
      else
        match agent.webhookUrl with
        | none => skipOutcome st' true
        | some _ =>
          { delivered := true, transport := some Transport.webhook,
            guardConsulted := true,
            cursorUpdate := some (agent.userId, msg.roomId, msg.id),
            guardState := st' }

/-- Membership predicate of getWebhookAgents() (src/auth.ts lines 151–155). -/
def isWebhookAgent (a : AgentInfo) : Bool :=
  (a.connectionType = ConnType.webhook || a.connectionType = ConnType.both) &&
    (a.webhookUrl.isSome || a.delivery = Delivery.openclawInject)

/-! ## SSE event log and replay (byoa-sse.ts)

fanoutToSSEClient persists each fanned-out message into a per-room Redis
sorted set keyed by the freshly allocated event id; on reconnect with
Last-Event-ID > 0, replayMissedMessages scans every room key and writes every
entry whose event id exceeds Last-Event-ID, in ascending event-id order.  The
union of all per-room sorted sets is modelled as one list of entries. -/

/-- One persisted entry: `JSON.stringify({...message, eventId})`. -/
structure LogEntry where
  eventId : Nat
  id : String
  room : String
  sender : String
  senderType : SenderType
  content : String
  timestamp : String
deriving DecidableEq, Repr

/-- Persistence performed by fanoutToSSEClient (zadd with score = eventId). -/
def fanoutPersist (log : List LogEntry) (e : LogEntry) : List LogEntry :=
  log ++ [e]

def insertByEventId (e : LogEntry) : List LogEntry → List LogEntry
  | [] => [e]
  | x :: xs =>
    if e.eventId ≤ x.eventId then e :: x :: xs else x :: insertByEventId e xs

def sortByEventId : List LogEntry → List LogEntry
  | [] => []
  | x :: xs => insertByEventId x (sortByEventId xs)

/-- replayMissedMessages (byoa-sse.ts lines 671–703): every logged entry with
eventId > afterEventId, sorted ascending by eventId, written to the stream. -/
def replayMissedMessages (log : List LogEntry) (afterEventId : Nat) : List LogEntry :=
  sortByEventId (log.filter fun e => afterEventId < e.eventId)

/-! ## SSE stream session registry (byoa-sse.ts GET /stream) -/

/-- sseClients: agentId → registered stream sessions (as opaque handles). -/
abbrev StreamState := List (String × List Nat)

def streamsOf (st : StreamState) (agentId : String) : List Nat :=
  (st.lookup agentId).getD []

structure ConnectOutcome where
  registered : Bool
  errorEvents : List String
  connectedEventSent : Bool
  closed : Bool
  state : StreamState
deriving DecidableEq, Repr

/-- The GET /stream handler's registration step (byoa-sse.ts lines 475–515):
at 2 or more live streams the request gets one TOO_MANY_CONNECTIONS error
event and is ended before registration and before the connected event. -/
def streamConnect (st : StreamState) (agentId : String) (handle : Nat) :
    ConnectOutcome :=
  if 2 ≤ (streamsOf st agentId).length then
    { registered := false, errorEvents := ["TOO_MANY_CONNECTIONS"],
      connectedEventSent := false, closed := true, state := st }
  else
    { registered := true, errorEvents := [], connectedEventSent := true,
      closed := false, state := (agentId, streamsOf st agentId ++ [handle]) :: st }

/-- The close handler (byoa-sse.ts lines 526–537): splice the session out. -/
def streamClose (st : StreamState) (agentId : String) (handle : Nat) : StreamState :=
  (agentId, (streamsOf st agentId).erase handle) :: st

inductive StreamReachable : StreamState → Prop where
  | init : StreamReachable []
  | connect (st : StreamState) (agentId : String) (handle : Nat) :
      StreamReachable st → StreamReachable (streamConnect st agentId handle).state
  | close (st : StreamState) (agentId : String) (handle : Nat) :
      StreamReachable st → StreamReachable (streamClose st agentId handle)

/-! ## Idempotency cache and POST /byoa/sse/messages (byoa-sse.ts lines 542–593)

The Redis keys `idempotency:<userId>:<key>` with EX 3600 become an
association list mapping the key to the cached body and its expiry instant
(seconds).  The upstream send and the fresh UUID become parameters. -/

inductive RespBody where
  | errorBody (error : String)
  | sendResult (messageId : String) (status : String)
deriving DecidableEq, Repr

abbrev IdemCache := List (String × (RespBody × Int))

def idemCacheKey (agentId k : String) : String :=
  "idempotency:" ++ agentId ++ ":" ++ k

def cacheGet (c : IdemCache) (now : Int) (key : String) : Option RespBody :=
  match c.lookup key with
  | some (body, expiry) => if now < expiry then some body else none
  | none => none

structure PostOutcome where
  status : Nat
  body : RespBody
  upstreamSend : Bool
  cache : IdemCache
deriving DecidableEq, Repr

def postMessages (cache : IdemCache) (now : Int) (agent : AgentInfo)
    (roomId content : String) (idemKey : Option String)
    (bridgeUp sendOk : Bool) (freshId : String) : PostOutcome :=
  if roomId = "" ∨ content = "" then
    ⟨400, RespBody.errorBody "roomId and content required", false, cache⟩
  else if 4000 < content.length then
    ⟨400, RespBody.errorBody "content must be string, max 4000 chars", false, cache⟩
  else
    let hit :=
      match idemKey with
      | some k =>
        if k = "" then none else cacheGet cache now (idemCacheKey agent.userId k)
      | none => none
    match hit with
    | some body => ⟨200, body, false, cache⟩
    | none =>
      if !bridgeUp then ⟨503, RespBody.errorBody "Bridge not connected", false, cache⟩
      else if !sendOk then
        ⟨502, RespBody.errorBody "Failed to deliver message", true, cache⟩
      else
        let body := RespBody.sendResult freshId "sent"
        let cache' :=
          match idemKey with
          | some k =>
            if k = "" then cache
            else (idemCacheKey agent.userId k, (body, now + 3600)) :: cache
          | none => cache
        ⟨201, body, true, cache'⟩

/-! ## Bridge heartbeat (triologue-bridge.ts startHeartbeat)

The setInterval callback becomes a step on the lastPong value (milliseconds);
the list of tick instants drives the run.  The source resets lastPong on
every successful ping *emit* and registers no pong listener, so lastPong is
the time of the previous tick, not of upstream activity. -/

inductive HeartbeatAction where
  | reconnectDead
  | closeAndReconnect
  | emitPing
deriving DecidableEq, Repr

/-- One heartbeat interval callback (triologue-bridge.ts lines 193–214). -/
def heartbeatTick (lastPong now : Int) (connected : Bool) : HeartbeatAction × Int :=
  if !connected then (HeartbeatAction.reconnectDead, lastPong)
  else if now - lastPong > 60000 then (HeartbeatAction.closeAndReconnect, lastPong)
  else (HeartbeatAction.emitPing, now)

/-- Whether the silent-connection branch ever fires over a run of ticks on a
connection that stays transport-connected the whole time. -/
def heartbeatFires : Int → List Int → Bool
  | _, [] => false
  | lastPong, t :: ts =>
    match heartbeatTick lastPong t true with
    | (HeartbeatAction.closeAndReconnect, _) => true
    | (_, lastPong') => heartbeatFires lastPong' ts

/-! ## Webhook dispatcher (src/webhook-dispatch.ts)

The attempt loop becomes structural recursion on remaining iterations; the
fetch result of each attempt is a parameter (HTTP status or network error).
Metric calls are counted in the result. -/

inductive AttemptOutcome where
  | status (code : Nat)
  | netError
deriving DecidableEq, Repr

/-- res.ok. -/
def isOkStatus (c : Nat) : Bool := 200 ≤ c && c < 300

/-- `res.status >= 400 && res.status < 500`. -/
def isClientError (c : Nat) : Bool := 400 ≤ c && c < 500

def retryable : AttemptOutcome → Bool
  | AttemptOutcome.netError => true
  | AttemptOutcome.status c => !isOkStatus c && !isClientError c

/-- AbortSignal.timeout argument of every attempt. -/
def perAttemptTimeoutMs : Nat := 10000

structure DispatchResult where
  success : Bool
  attemptsMade : Nat
  retriesRecorded : List Nat
  delaysMs : List Nat
  lostRecorded : Nat
  sentRecorded : Nat
deriving DecidableEq, Repr

def dispatchAux (att : Nat → AttemptOutcome) (hasAgentId hasRoomId : Bool) :
    Nat → Nat → DispatchResult
  | 0, attempt =>
    { success := false, attemptsMade := attempt, retriesRecorded := [],
      delaysMs := [], lostRecorded := if hasAgentId && hasRoomId then 1 else 0,
      sentRecorded := 0 }
  | fuel + 1, attempt =>
    match att attempt with
    | AttemptOutcome.status c =>
      if isOkStatus c then
        { success := true, attemptsMade := attempt + 1, retriesRecorded := [],
          delaysMs := [], lostRecorded := 0,
          sentRecorded := if hasAgentId && hasRoomId then 1 else 0 }
      else if isClientError c then
        { success := false, attemptsMade := attempt + 1, retriesRecorded := [],
          delaysMs := [], lostRecorded := 0, sentRecorded := 0 }
      else
        let rest := dispatchAux att hasAgentId hasRoomId fuel (attempt + 1)
        { rest with
          retriesRecorded :=
            (if hasAgentId then [attempt + 1] else []) ++ rest.retriesRecorded,
          delaysMs :=
            (if attempt < 3 then [1000 * 2 ^ attempt] else []) ++ rest.delaysMs }
    | AttemptOutcome.netError =>
      let rest := dispatchAux att hasAgentId hasRoomId fuel (attempt + 1)
      { rest with
        retriesRecorded :=
          (if hasAgentId then [attempt + 1] else []) ++ rest.retriesRecorded,
        delaysMs :=
          (if attempt < 3 then [1000 * 2 ^ attempt] else []) ++ rest.delaysMs }

/-- dispatchWebhook: `for (let attempt = 0; attempt <= MAX_RETRIES; attempt++)`
with MAX_RETRIES = 3, i.e. at most 4 attempts starting at attempt 0. -/
def dispatchWebhook (att : Nat → AttemptOutcome) (hasAgentId hasRoomId : Bool) :
    DispatchResult :=
  dispatchAux att hasAgentId hasRoomId 4 0

/-! ## Startup (src/index.ts start, src/auth.ts loadAgents/startSync) -/

structure StartOutcome where
  exited : Bool
  listening : Bool
  agents : List AgentInfo
  loggedNoAgents : Bool
deriving DecidableEq, Repr

/-- loadAgents: parse the agents file, or fall back to the empty list. -/
def loadAgents (fileAgents : Option (List AgentInfo)) : List AgentInfo :=
  fileAgents.getD []

/-- syncFromApi: on success replace the registry, on failure keep it. -/
def syncFromApi (apiAgents : Option (List AgentInfo))
    (current : List AgentInfo) : Bool × List AgentInfo :=
  match apiAgents with
  | some l => (true, l)
  | none => (false, current)

/-- startSync: first sync, and the `!ok && agents.length === 0` error log. -/
def startSync (apiAgents : Option (List AgentInfo)) (current : List AgentInfo) :
    List AgentInfo × Bool :=
  match syncFromApi apiAgents current with
  | (ok, agents) => (agents, !ok && agents.isEmpty)

/-- The whole startup order of src/index.ts: the GATEWAY_TOKEN guard and
process.exit(1), loadAgents, bridge.connect with process.exit(1) on failure,
startSync, then server.listen. -/
def gatewayStart (gatewayToken : Option String) (bridgeOk : Bool)
    (fileAgents apiAgents : Option (List AgentInfo)) : StartOutcome :=
  match gatewayToken with
  | none => ⟨true, false, [], false⟩
  | some tok =>
    if tok = "" then ⟨true, false, [], false⟩
    else
      let current := loadAgents fileAgents
      if !bridgeOk then ⟨true, false, current, false⟩
      else
        match startSync apiAgents current with
        | (agents, logged) => ⟨false, true, agents, logged⟩

/-! ## Concrete scenario data used by counterexamples and witnesses -/

/-- A standard-trust agent reachable over webhook. -/
def bobWebhookAgent : AgentInfo :=
  ⟨"Bob", "u-bob", "bob", "bob", some "https://bob.example/hook", none,
    Trust.elevated, RecvMode.mentions, Delivery.webhook, ConnType.webhook⟩

/-- Bob again, but connected over WebSocket with plain (non-inject) delivery. -/
def bobWsAgent : AgentInfo :=
  ⟨"Bob", "u-bob", "bob", "bob", some "https://bob.example/hook", none,
    Trust.standard, RecvMode.mentions, Delivery.webhook, ConnType.both⟩

/-- An SSE agent that only wants mentions. -/
def aliceAgent : AgentInfo :=
  ⟨"Alice", "u-alice", "alice", "alice", none, none, Trust.elevated,
    RecvMode.mentions, Delivery.webhook, ConnType.websocket⟩

/-- A human message mentioning bob. -/
def aliceMentionsBob : InboundMsg :=
  ⟨"m103", "@bob status?", "alice", "u-alice", SenderType.human, "R", "room", "t"⟩

/-- An AI message from xbot mentioning bob. -/
def xbotMentionsBob : InboundMsg :=
  ⟨"m9", "@bob ping", "xbot", "u-x", SenderType.ai, "R", "room", "t"⟩

/-- Guard state after one allowed xbot↔bob exchange at t = 35000 ms. -/
def xbotBobCooldownState : GuardState :=
  (shouldDeliver initGuardState Trust.elevated true "xbot" "bob" 35000).2

/-- A persisted stream entry authored by alice (no mention of alice). -/
def aliceOwnEntry : LogEntry :=
  ⟨2, "m1", "R", "alice", SenderType.ai, "hello all", "t"⟩

/-! ## Claim theorems -/

/-- C1: the claim says shouldDeliver denies every delivery from an AI-kind
sender to a standard-trust target.  The implementation ignores its trust
parameter (`_targetTrust`), contradicting the module's own header comment
("standard trust → only receives human messages"): from a fresh guard state,
an AI-sender call with a standard-trust target and distinct ids is allowed,
and the result of every call is entirely independent of the trust argument. -/
theorem c1_standard_trust_agent_message_allowed :
    (shouldDeliver initGuardState Trust.standard true "alice" "bob" 100000).1 = true ∧
    ∀ (t t' : Trust) (st : GuardState) (a : Bool) (s tg : String) (now : Int),
      shouldDeliver st t a s tg now = shouldDeliver st t' a s tg now := by
  exact ⟨by decide, fun t t' st a s tg now => rfl⟩

/-- C6: the claim says a connection silent for 60 s is closed at the next
heartbeat check.  The heartbeat callback resets lastPong on every ping emit
and no pong listener exists, so on a transport-connected but completely
silent connection the 60 s branch never fires: five checks (125 s of total
silence) all take the emitPing branch, and a single check only fires when
more than 60 s elapsed since the previous tick itself. -/
theorem c6_silent_connection_never_closed :
    heartbeatFires 0 [25000, 50000, 75000, 100000, 125000] = false ∧
    (heartbeatTick 50000 75000 true).1 = HeartbeatAction.emitPing := by
  exact ⟨by decide, by decide⟩

/-- C4 counterexample: with a gateway token present, a connected bridge, no
readable agents file and no reachable config endpoint, startup does not
terminate: the gateway listens with an empty registry. -/
theorem c4_counterexample_empty_bootstrap_continues :
    (gatewayStart (some "gw-token") true none none).exited = false ∧
    (gatewayStart (some "gw-token") true none none).listening = true ∧
    (gatewayStart (some "gw-token") true none none).agents = [] := by
  exact ⟨rfl, rfl, rfl⟩

/-- C4 amended: if bootstrap finds neither endpoint nor file (the registry is
empty from both sources), startup logs the no-agents error and continues
serving with an empty registry instead of failing fast. -/
theorem c4_amended_empty_bootstrap_logs_and_serves (tok : String) (htok : tok ≠ "")
    (fileAgents : Option (List AgentInfo)) (hfile : loadAgents fileAgents = []) :
    gatewayStart (some tok) true fileAgents none = ⟨false, true, [], true⟩ := by
  simp [gatewayStart, htok, hfile, startSync, syncFromApi]

theorem c4_amended_witness :
    ("gw-token" : String) ≠ "" ∧ loadAgents (none : Option (List AgentInfo)) = [] ∧
    gatewayStart (some "gw-token") true none none = ⟨false, true, [], true⟩ :=
  ⟨by decide, rfl, c4_amended_empty_bootstrap_logs_and_serves "gw-token" (by decide) none rfl⟩

/-- C10: in every guard state reachable from module load, the `ex.count >= 5`
rate-cap branch of shouldDeliver cannot be reached with its condition true:
the 30 s cooldown keeps any counter that is tested inside its own 60 s window
below 5, so the cooldown alone enforces the pair rate. -/
theorem c10_rate_cap_branch_unreachable (st : GuardState) (h : GuardReachable st)
    (a : Bool) (s tg : String) (now : Int) : ¬ RateCapHit st a s tg now :=
  rateCap_not_hit_of_inv st (guardInv_reachable st h) a s tg now

theorem c10_witness :
    GuardReachable initGuardState ∧
    ¬ RateCapHit initGuardState true "alice" "bob" 100000 :=
  ⟨GuardReachable.init,
    c10_rate_cap_branch_unreachable initGuardState GuardReachable.init
      true "alice" "bob" 100000⟩

theorem mem_insertByEventId (e x : LogEntry) (l : List LogEntry) :
    e ∈ insertByEventId x l ↔ e = x ∨ e ∈ l := by
  induction l with
  | nil => simp [insertByEventId]
  | cons y ys ih =>
    simp only [insertByEventId]
    split
    · simp [List.mem_cons]
    · simp [List.mem_cons, ih]
      tauto

theorem mem_sortByEventId (e : LogEntry) (l : List LogEntry) :
    e ∈ sortByEventId l ↔ e ∈ l := by
  induction l with
  | nil => simp [sortByEventId]
  | cons y ys ih => simp [sortByEventId, mem_insertByEventId, ih]

/-- C2 counterexample: the replay path violates the delivery invariant.  An
entry that was persisted while fanning out alice's own message is replayed
to alice's reconnecting stream (Last-Event-ID 1 < its event id 2), although
alice is its sender, alice's receive mode is mentions, and the content does
not mention alice. -/
theorem c2_counterexample_replay_delivers_own_message :
    replayMissedMessages (fanoutPersist [] aliceOwnEntry) 1 = [aliceOwnEntry] ∧
    aliceOwnEntry.sender = aliceAgent.username ∧
    aliceAgent.receiveMode = RecvMode.mentions ∧
    isMentioned aliceOwnEntry.content aliceAgent = false := by
  exact ⟨rfl, rfl, rfl, by decide⟩

/-- C2 amended: on the live WebSocket and SSE paths a delivered candidate is
never the sender (neither by username nor principal id) and satisfies
receiveMode = all or is mentioned; on the webhook/local-inject loop the
sender is excluded by username only and a mention is always required; replay
of persisted stream entries delivers exactly the logged entries with event id
greater than Last-Event-ID, with no sender, mention or receive-mode filter. -/
theorem c2_amended_delivery_filters :
    (∀ (st : GuardState) (msg : InboundMsg) (agent : AgentInfo) (now : Int),
      (wsCandidate st msg agent now).delivered = true →
        agent.username ≠ msg.senderUsername ∧ agent.userId ≠ msg.senderId ∧
          (agent.receiveMode = RecvMode.all ∨ isMentioned msg.content agent = true)) ∧
    (∀ (st : GuardState) (msg : InboundMsg) (agent : AgentInfo)
        (hasStream wsConnected : Bool) (now : Int),
      (sseCandidate st msg agent hasStream wsConnected now).delivered = true →
        agent.username ≠ msg.senderUsername ∧ agent.userId ≠ msg.senderId ∧
          (agent.receiveMode = RecvMode.all ∨ isMentioned msg.content agent = true)) ∧
    (∀ (st : GuardState) (msg : InboundMsg) (agent : AgentInfo)
        (wsConnected : Bool) (now : Int),
      (whCandidate st msg agent wsConnected now).delivered = true →
        agent.username ≠ msg.senderUsername ∧ isMentioned msg.content agent = true) ∧
    (∀ (log : List LogEntry) (afterEventId : Nat) (e : LogEntry),
      e ∈ replayMissedMessages log afterEventId ↔
        e ∈ log ∧ afterEventId < e.eventId) := by
  refine ⟨?_, ?_, ?_, ?_⟩
  · intro st msg agent now h
    unfold wsCandidate at h
    split at h
    · simp [skipOutcome] at h
    split at h
    · simp [skipOutcome] at h
    split at h
    · simp [skipOutcome] at h
    rename_i h1 h2 h3
    refine ⟨h1, h2, ?_⟩
    by_cases hm : isMentioned msg.content agent = true
    · exact Or.inr hm
    · left
      rcases hrm : agent.receiveMode with _ | _
      · exact absurd ⟨hrm, by simpa using hm⟩ h3
      · rfl
  · intro st msg agent hasStream wsConnected now h
    unfold sseCandidate at h
    split at h
    · simp [skipOutcome] at h
    split at h
    · simp [skipOutcome] at h
    split at h
    · simp [skipOutcome] at h
    split at h
    · simp [skipOutcome] at h
    split at h
    · simp [skipOutcome] at h
    rename_i h1 h2 h3 h4 h5
    refine ⟨h2, h3, ?_⟩
    by_cases hm : isMentioned msg.content agent = true
    · exact Or.inr hm
    · left
      rcases hrm : agent.receiveMode with _ | _
      · exact absurd ⟨hrm, by simpa using hm⟩ h5
      · rfl
  · intro st msg agent wsConnected now h
    unfold whCandidate at h
    split at h
    · simp [skipOutcome] at h
    rename_i h1
    refine ⟨h1, ?_⟩
    split at h
    split at h
    · simp [skipOutcome] at h
    split at h
    · simp [skipOutcome] at h
    · rename_i hm
      simpa using hm
  · intro log afterEventId e
    simp [replayMissedMessages, mem_sortByEventId, List.mem_filter]

theorem c2_amended_witness :
    (wsCandidate initGuardState aliceMentionsBob bobWsAgent 100000).delivered = true ∧
    (bobWsAgent.username ≠ aliceMentionsBob.senderUsername ∧
      bobWsAgent.userId ≠ aliceMentionsBob.senderId ∧
      (bobWsAgent.receiveMode = RecvMode.all ∨
        isMentioned aliceMentionsBob.content bobWsAgent = true)) :=
  ⟨by decide,
    c2_amended_delivery_filters.1 initGuardState aliceMentionsBob bobWsAgent 100000
      (by decide)⟩

/-- C3 counterexample: on the webhook loop the guard is consulted before the
mention check.  With one xbot↔bob exchange at t = 35 s, an AI message at
t = 50 s that directly mentions bob is blocked by the 30 s cooldown: the
delivery decision for a mentioned candidate is made by the loop guard. -/
theorem c3_counterexample_mention_blocked_by_guard :
    isMentioned xbotMentionsBob.content bobWebhookAgent = true ∧
    (whCandidate xbotBobCooldownState xbotMentionsBob bobWebhookAgent
      false 50000).guardConsulted = true ∧
    (whCandidate xbotBobCooldownState xbotMentionsBob bobWebhookAgent
      false 50000).delivered = false := by
  exact ⟨by decide, by decide, by decide⟩

/-- C3 amended: on the WebSocket and SSE paths a direct mention bypasses the
loop guard (it is consulted exactly when the candidate is not mentioned), but
on the webhook/local-inject loop shouldDeliver is consulted for every
candidate that is not the sender by username, before the mention check, so a
mentioned candidate there can be blocked by the guard. -/
theorem c3_amended_guard_bypass_scope :
    (∀ (st : GuardState) (msg : InboundMsg) (agent : AgentInfo) (now : Int),
      isMentioned msg.content agent = true →
        (wsCandidate st msg agent now).guardConsulted = false) ∧
    (∀ (st : GuardState) (msg : InboundMsg) (agent : AgentInfo)
        (hasStream wsConnected : Bool) (now : Int),
      isMentioned msg.content agent = true →
        (sseCandidate st msg agent hasStream wsConnected now).guardConsulted = false) ∧
    (∀ (st : GuardState) (msg : InboundMsg) (agent : AgentInfo)
        (wsConnected : Bool) (now : Int),
      agent.username ≠ msg.senderUsername →
        (whCandidate st msg agent wsConnected now).guardConsulted = true) := by
  refine ⟨?_, ?_, ?_⟩
  · intro st msg agent now hm
    unfold wsCandidate
    split
    · rfl
    split
    · rfl
    split
    · rfl
    split
    · rename_i hmf
      exact absurd hmf (by simp [hm])
    · unfold wsForward
      split <;> rfl
  · intro st msg agent hasStream wsConnected now hm
    unfold sseCandidate
    split
    · rfl
    split
    · rfl
    split
    · rfl
    split
    · rfl
    split
    · rfl
    split
    · rename_i hmf
      exact absurd hmf (by simp [hm])
    · rfl
  · intro st msg agent wsConnected now hne
    unfold whCandidate
    split
    · rename_i heq
      exact absurd heq hne
    split
    split
    · rfl
    split
    · rfl
    split
    · rfl
    split
    · rfl
    · split <;> rfl

theorem c3_amended_witness :
    isMentioned aliceMentionsBob.content bobWsAgent = true ∧
    (wsCandidate initGuardState aliceMentionsBob bobWsAgent 100000).guardConsulted
      = false :=
  ⟨by decide,
    c3_amended_guard_bypass_scope.1 initGuardState aliceMentionsBob bobWsAgent 100000
      (by decide)⟩

/-- C5 counterexample: a mention delivered over a live plain WebSocket
session does not advance the read cursor — no markMessageSeen call happens
on that branch. -/
theorem c5_counterexample_socket_mention_no_cursor :
    (wsCandidate initGuardState aliceMentionsBob bobWsAgent 100000).delivered = true ∧
    (wsCandidate initGuardState aliceMentionsBob bobWsAgent 100000).transport
      = some Transport.ws ∧
    isMentioned aliceMentionsBob.content bobWsAgent = true ∧
    (wsCandidate initGuardState aliceMentionsBob bobWsAgent 100000).cursorUpdate
      = none := by
  exact ⟨by decide, by decide, by decide, by decide⟩

/-- C5 amended: the read cursor is advanced to (C, M.room) ↦ M.id exactly
when routing delivers a mention through an openclaw-inject branch (socket
loop) or through the webhook loop; plain WebSocket and SSE deliveries never
touch the cursor, and no skipped candidate does either. -/
theorem c5_amended_cursor_effects :
    (∀ (st : GuardState) (msg : InboundMsg) (agent : AgentInfo) (now : Int),
      (wsCandidate st msg agent now).cursorUpdate ≠ none →
        (wsCandidate st msg agent now).delivered = true ∧
          isMentioned msg.content agent = true ∧
          agent.delivery = Delivery.openclawInject ∧
          (wsCandidate st msg agent now).cursorUpdate
            = some (agent.userId, msg.roomId, msg.id)) ∧
    (∀ (st : GuardState) (msg : InboundMsg) (agent : AgentInfo) (now : Int),
      (wsCandidate st msg agent now).transport = some Transport.ws →
        (wsCandidate st msg agent now).cursorUpdate = none) ∧
    (∀ (st : GuardState) (msg : InboundMsg) (agent : AgentInfo)
        (hasStream wsConnected : Bool) (now : Int),
      (sseCandidate st msg agent hasStream wsConnected now).cursorUpdate = none) ∧
    (∀ (st : GuardState) (msg : InboundMsg) (agent : AgentInfo)
        (wsConnected : Bool) (now : Int),
      (whCandidate st msg agent wsConnected now).delivered = true →
        (whCandidate st msg agent wsConnected now).cursorUpdate
            = some (agent.userId, msg.roomId, msg.id) ∧
          isMentioned msg.content agent = true) ∧
    (∀ (st : GuardState) (msg : InboundMsg) (agent : AgentInfo)
        (wsConnected : Bool) (now : Int),
      (whCandidate st msg agent wsConnected now).delivered = false →
        (whCandidate st msg agent wsConnected now).cursorUpdate = none) := by
  refine ⟨?_, ?_, ?_, ?_, ?_⟩
  · intro st msg agent now h
    by_cases h1 : agent.username = msg.senderUsername
    · simp [wsCandidate, h1, skipOutcome] at h
    by_cases h2 : agent.userId = msg.senderId
    · simp [wsCandidate, h1, h2, skipOutcome] at h
    by_cases hm : isMentioned msg.content agent = false
    · by_cases hrm : agent.receiveMode = RecvMode.mentions
      · simp [wsCandidate, h1, h2, hm, hrm, skipOutcome] at h
      by_cases hallow : (shouldDeliver st agent.trustLevel
          (msg.senderType = SenderType.ai) msg.senderUsername agent.username now).1
          = false
      · simp [wsCandidate, h1, h2, hm, hrm, hallow, skipOutcome] at h
      by_cases hinj : agent.delivery = Delivery.openclawInject
      · simp [wsCandidate, wsForward, h1, h2, hm, hrm, hallow, hinj] at h
      · simp [wsCandidate, wsForward, h1, h2, hm, hrm, hallow, hinj] at h
    · have hm' : isMentioned msg.content agent = true := by simpa using hm
      by_cases hinj : agent.delivery = Delivery.openclawInject
      · simp [wsCandidate, wsForward, h1, h2, hm', hinj, skipOutcome]
      · simp [wsCandidate, wsForward, h1, h2, hm', hinj, skipOutcome] at h
  · intro st msg agent now h
    by_cases h1 : agent.username = msg.senderUsername
    · simp [wsCandidate, h1, skipOutcome] at h
    by_cases h2 : agent.userId = msg.senderId
    · simp [wsCandidate, h1, h2, skipOutcome] at h
    by_cases hm : isMentioned msg.content agent = false
    · by_cases hrm : agent.receiveMode = RecvMode.mentions
      · simp [wsCandidate, h1, h2, hm, hrm, skipOutcome] at h
      by_cases hallow : (shouldDeliver st agent.trustLevel
          (msg.senderType = SenderType.ai) msg.senderUsername agent.username now).1
          = false
      · simp [wsCandidate, h1, h2, hm, hrm, hallow, skipOutcome] at h
      by_cases hinj : agent.delivery = Delivery.openclawInject
      · simp [wsCandidate, wsForward, h1, h2, hm, hrm, hallow, hinj] at h
      · simp [wsCandidate, wsForward, h1, h2, hm, hrm, hallow, hinj]
    · have hm' : isMentioned msg.content agent = true := by simpa using hm
      by_cases hinj : agent.delivery = Delivery.openclawInject
      · simp [wsCandidate, wsForward, h1, h2, hm', hinj] at h
      · simp [wsCandidate, wsForward, h1, h2, hm', hinj]
  · intro st msg agent hasStream wsConnected now
    unfold sseCandidate
    split
    · rfl
    split
    · rfl
    split
    · rfl
    split
    · rfl
    split
    · rfl
    split
    · split <;> rfl
    · rfl
  · intro st msg agent wsConnected now h
    by_cases h1 : agent.username = msg.senderUsername
    · simp [whCandidate, h1, skipOutcome] at h
    rcases hsd : shouldDeliver st agent.trustLevel (msg.senderType = SenderType.ai)
      msg.senderUsername agent.username now with ⟨allow, st'⟩
    cases allow with
    | false => simp [whCandidate, h1, hsd, skipOutcome] at h
    | true =>
      by_cases hm : isMentioned msg.content agent = false
      · simp [whCandidate, h1, hsd, hm, skipOutcome] at h
      have hm' : isMentioned msg.content agent = true := by simpa using hm
      by_cases hws : wsConnected = true
      · simp [whCandidate, h1, hsd, hm, hws, skipOutcome] at h
      by_cases hinj : agent.delivery = Delivery.openclawInject
      · refine ⟨?_, hm'⟩
        simp [whCandidate, h1, hsd, hm, hws, hinj]
      · cases hurl : agent.webhookUrl with
        | none => simp [whCandidate, h1, hsd, hm, hws, hinj, hurl, skipOutcome] at h
        | some u =>
          refine ⟨?_, hm'⟩
          simp [whCandidate, h1, hsd, hm, hws, hinj, hurl]
  · intro st msg agent wsConnected now h
    by_cases h1 : agent.username = msg.senderUsername
    · simp [whCandidate, h1, skipOutcome]
    rcases hsd : shouldDeliver st agent.trustLevel (msg.senderType = SenderType.ai)
      msg.senderUsername agent.username now with ⟨allow, st'⟩
    cases allow with
    | false => simp [whCandidate, h1, hsd, skipOutcome]
    | true =>
      by_cases hm : isMentioned msg.content agent = false
      · simp [whCandidate, h1, hsd, hm, skipOutcome]
      by_cases hws : wsConnected = true
      · simp [whCandidate, h1, hsd, hm, hws, skipOutcome]
      by_cases hinj : agent.delivery = Delivery.openclawInject
      · simp [whCandidate, h1, hsd, hm, hws, hinj, skipOutcome] at h
      · cases hurl : agent.webhookUrl with
        | none => simp [whCandidate, h1, hsd, hm, hws, hinj, hurl, skipOutcome]
        | some u => simp [whCandidate, h1, hsd, hm, hws, hinj, hurl, skipOutcome] at h

theorem c5_amended_witness :
    (whCandidate initGuardState aliceMentionsBob bobWebhookAgent false 100000).delivered
      = true ∧
    (whCandidate initGuardState aliceMentionsBob bobWebhookAgent false 100000).cursorUpdate
      = some (bobWebhookAgent.userId, aliceMentionsBob.roomId, aliceMentionsBob.id) ∧
    isMentioned aliceMentionsBob.content bobWebhookAgent = true :=
  ⟨by decide,
    (c5_amended_cursor_effects.2.2.2.1 initGuardState aliceMentionsBob bobWebhookAgent
      false 100000 (by decide)).1,
    (c5_amended_cursor_effects.2.2.2.1 initGuardState aliceMentionsBob bobWebhookAgent
      false 100000 (by decide)).2⟩

/-! ### Webhook dispatcher stepping lemmas -/

theorem dispatchAux_retry (att : Nat → AttemptOutcome) (haid hrid : Bool)
    (fuel attempt : Nat) (h : retryable (att attempt) = true) :
    dispatchAux att haid hrid (fuel + 1) attempt =
      { dispatchAux att haid hrid fuel (attempt + 1) with
        retriesRecorded := (if haid then [attempt + 1] else []) ++
          (dispatchAux att haid hrid fuel (attempt + 1)).retriesRecorded,
        delaysMs := (if attempt < 3 then [1000 * 2 ^ attempt] else []) ++
          (dispatchAux att haid hrid fuel (attempt + 1)).delaysMs } := by
  cases hc : att attempt with
  | netError => simp [dispatchAux, hc]
  | status c =>
    rw [hc] at h
    simp only [retryable, Bool.and_eq_true, Bool.not_eq_true'] at h
    simp [dispatchAux, hc, h.1, h.2]

theorem dispatchAux_ok (att : Nat → AttemptOutcome) (haid hrid : Bool)
    (fuel attempt : Nat) (c : Nat) (hc : att attempt = AttemptOutcome.status c)
    (hok : isOkStatus c = true) :
    dispatchAux att haid hrid (fuel + 1) attempt =
      { success := true, attemptsMade := attempt + 1, retriesRecorded := [],
        delaysMs := [], lostRecorded := 0,
        sentRecorded := if haid && hrid then 1 else 0 } := by
  simp [dispatchAux, hc, hok]

theorem dispatchAux_clientError (att : Nat → AttemptOutcome) (haid hrid : Bool)
    (fuel attempt : Nat) (c : Nat) (hc : att attempt = AttemptOutcome.status c)
    (h4 : isClientError c = true) :
    dispatchAux att haid hrid (fuel + 1) attempt =
      { success := false, attemptsMade := attempt + 1, retriesRecorded := [],
        delaysMs := [], lostRecorded := 0, sentRecorded := 0 } := by
  have hok : isOkStatus c = false := by
    simp only [isClientError, Bool.and_eq_true, decide_eq_true_eq] at h4
    simp only [isOkStatus, Bool.and_eq_false_iff, decide_eq_false_iff_not]
    right
    omega
  simp [dispatchAux, hc, hok, h4]

/-- C7: the retry policy of dispatchWebhook.  The per-attempt timeout passed
to every fetch is 10 s; a 2xx after k retryable attempts ends the dispatch as
success; a 4xx after k retryable attempts ends it with no further attempt; if
all 4 attempts are retryable (5xx or network error) the dispatcher records
the backoff delays 1 s, 2 s, 4 s, stops after 4 attempts and increments the
message-lost metric exactly once. -/
theorem c7_webhook_retry_policy (att : Nat → AttemptOutcome) :
    perAttemptTimeoutMs = 10000 ∧
    ((∀ i, i < 4 → retryable (att i) = true) →
      dispatchWebhook att true true =
        { success := false, attemptsMade := 4, retriesRecorded := [1, 2, 3, 4],
          delaysMs := [1000, 2000, 4000], lostRecorded := 1, sentRecorded := 0 }) ∧
    (∀ k c, k < 4 → (∀ i, i < k → retryable (att i) = true) →
      att k = AttemptOutcome.status c → isOkStatus c = true →
      dispatchWebhook att true true =
        { success := true, attemptsMade := k + 1,
          retriesRecorded := List.range' 1 k,
          delaysMs := List.take k [1000, 2000, 4000],
          lostRecorded := 0, sentRecorded := 1 }) ∧
    (∀ k c, k < 4 → (∀ i, i < k → retryable (att i) = true) →
      att k = AttemptOutcome.status c → isClientError c = true →
      dispatchWebhook att true true =
        { success := false, attemptsMade := k + 1,
          retriesRecorded := List.range' 1 k,
          delaysMs := List.take k [1000, 2000, 4000],
          lostRecorded := 0, sentRecorded := 0 }) := by
  refine ⟨rfl, ?_, ?_, ?_⟩
  · intro h
    rw [dispatchWebhook,
      dispatchAux_retry att true true 3 0 (h 0 (by omega)),
      dispatchAux_retry att true true 2 1 (h 1 (by omega)),
      dispatchAux_retry att true true 1 2 (h 2 (by omega)),
      dispatchAux_retry att true true 0 3 (h 3 (by omega))]
    rfl
  · intro k c hk hpre hc hok
    interval_cases k
    · rw [dispatchWebhook, dispatchAux_ok att true true 3 0 c hc hok]
      rfl
    · rw [dispatchWebhook,
        dispatchAux_retry att true true 3 0 (hpre 0 (by omega)),
        dispatchAux_ok att true true 2 1 c hc hok]
      rfl
    · rw [dispatchWebhook,
        dispatchAux_retry att true true 3 0 (hpre 0 (by omega)),
        dispatchAux_retry att true true 2 1 (hpre 1 (by omega)),
        dispatchAux_ok att true true 1 2 c hc hok]
      rfl
    · rw [dispatchWebhook,
        dispatchAux_retry att true true 3 0 (hpre 0 (by omega)),
        dispatchAux_retry att true true 2 1 (hpre 1 (by omega)),
        dispatchAux_retry att true true 1 2 (hpre 2 (by omega)),
        dispatchAux_ok att true true 0 3 c hc hok]
      rfl
  · intro k c hk hpre hc h4
    interval_cases k
    · rw [dispatchWebhook, dispatchAux_clientError att true true 3 0 c hc h4]
      rfl
    · rw [dispatchWebhook,
        dispatchAux_retry att true true 3 0 (hpre 0 (by omega)),
        dispatchAux_clientError att true true 2 1 c hc h4]
      rfl
    · rw [dispatchWebhook,
        dispatchAux_retry att true true 3 0 (hpre 0 (by omega)),
        dispatchAux_retry att true true 2 1 (hpre 1 (by omega)),
        dispatchAux_clientError att true true 1 2 c hc h4]
      rfl
    · rw [dispatchWebhook,
        dispatchAux_retry att true true 3 0 (hpre 0 (by omega)),
        dispatchAux_retry att true true 2 1 (hpre 1 (by omega)),
        dispatchAux_retry att true true 1 2 (hpre 2 (by omega)),
        dispatchAux_clientError att true true 0 3 c hc h4]
      rfl

theorem c7_witness :
    (∀ i, i < 4 → retryable ((fun _ => AttemptOutcome.status 500) i) = true) ∧
    dispatchWebhook (fun _ => AttemptOutcome.status 500) true true =
      { success := false, attemptsMade := 4, retriesRecorded := [1, 2, 3, 4],
        delaysMs := [1000, 2000, 4000], lostRecorded := 1, sentRecorded := 0 } :=
  ⟨fun _ _ => rfl,
    (c7_webhook_retry_policy (fun _ => AttemptOutcome.status 500)).2.1
      (fun _ _ => rfl)⟩

/-! ### Stream session cap -/

theorem streamCap_reachable (st : StreamState) (h : StreamReachable st) :
    ∀ agentId, (streamsOf st agentId).length ≤ 2 := by
  induction h with
  | init => intro agentId; simp [streamsOf, List.lookup]
  | connect st agentId handle _ ih =>
    intro id
    unfold streamConnect
    split
    · exact ih id
    · rename_i hlt
      unfold streamsOf at hlt ⊢
      rw [lookup_cons_eq_ite]
      by_cases hid : id = agentId
      · rw [if_pos hid]
        simp only [Option.getD_some, List.length_append, List.length_singleton]
        omega
      · rw [if_neg hid]
        exact ih id
  | close st agentId handle _ ih =>
    intro id
    unfold streamClose streamsOf
    rw [lookup_cons_eq_ite]
    by_cases hid : id = agentId
    · rw [if_pos hid]
      simp only [Option.getD_some]
      exact le_trans ((List.erase_sublist _ _).length_le) (ih agentId)
    · rw [if_neg hid]
      exact ih id

/-- C8: in every reachable registry state each principal has at most 2
registered stream sessions, and a connection attempt while 2 are live gets
exactly one TOO_MANY_CONNECTIONS error event, is closed, receives no
connected event, and leaves the registry unchanged. -/
theorem c8_stream_session_cap (st : StreamState) (h : StreamReachable st) :
    (∀ agentId, (streamsOf st agentId).length ≤ 2) ∧
    (∀ agentId handle, 2 ≤ (streamsOf st agentId).length →
      streamConnect st agentId handle =
        { registered := false, errorEvents := ["TOO_MANY_CONNECTIONS"],
          connectedEventSent := false, closed := true, state := st }) := by
  refine ⟨streamCap_reachable st h, ?_⟩
  intro agentId handle hcap
  unfold streamConnect
  rw [if_pos hcap]

/-- The registry after two accepted connects for principal p1. -/
def twoStreamsState : StreamState :=
  (streamConnect (streamConnect [] "p1" 0).state "p1" 1).state

theorem c8_witness :
    StreamReachable twoStreamsState ∧
    (streamsOf twoStreamsState "p1").length ≤ 2 ∧
    streamConnect twoStreamsState "p1" 2 =
      { registered := false, errorEvents := ["TOO_MANY_CONNECTIONS"],
        connectedEventSent := false, closed := true, state := twoStreamsState } :=
  ⟨StreamReachable.connect _ "p1" 1 (StreamReachable.connect _ "p1" 0 StreamReachable.init),
    (c8_stream_session_cap twoStreamsState
      (StreamReachable.connect _ "p1" 1
        (StreamReachable.connect _ "p1" 0 StreamReachable.init))).1 "p1",
    (c8_stream_session_cap twoStreamsState
      (StreamReachable.connect _ "p1" 1
        (StreamReachable.connect _ "p1" 0 StreamReachable.init))).2 "p1" 2 (by decide)⟩

/-! ### Idempotent send retry -/

/-- C9: a POST /byoa/sse/messages that passes validation with a nonempty
idempotency key K, misses the cache and succeeds upstream answers 201 with
body {messageId, status: 'sent'} and caches that body under
(principal, K) with expiry now + 3600 s.  Any retry by the same principal
with the same key strictly before the expiry returns exactly the cached
body with status 200, performs no upstream send (whatever the bridge state),
and leaves the cache unchanged; from the expiry instant on the entry is
gone. -/
theorem c9_idempotency_cache (cache : IdemCache) (now : Int) (agent : AgentInfo)
    (roomId content k freshId : String)
    (hroom : roomId ≠ "") (hcontent : content ≠ "") (hlen : content.length ≤ 4000)
    (hk : k ≠ "")
    (hmiss : cacheGet cache now (idemCacheKey agent.userId k) = none) :
    postMessages cache now agent roomId content (some k) true true freshId =
      ⟨201, RespBody.sendResult freshId "sent", true,
        (idemCacheKey agent.userId k,
          (RespBody.sendResult freshId "sent", now + 3600)) :: cache⟩ ∧
    (∀ (now' : Int) (bridgeUp' sendOk' : Bool) (freshId' : String),
      now' < now + 3600 →
      postMessages
          (postMessages cache now agent roomId content (some k) true true freshId).cache
          now' agent roomId content (some k) bridgeUp' sendOk' freshId' =
        ⟨200, RespBody.sendResult freshId "sent", false,
          (postMessages cache now agent roomId content (some k) true true freshId).cache⟩) ∧
    (∀ t : Int, now + 3600 ≤ t →
      cacheGet (postMessages cache now agent roomId content (some k) true true freshId).cache
        t (idemCacheKey agent.userId k) = none) := by
  have hval : ¬(roomId = "" ∨ content = "") := by tauto
  have hlen' : ¬(4000 < content.length) := by omega
  have ho1 : postMessages cache now agent roomId content (some k) true true freshId =
      ⟨201, RespBody.sendResult freshId "sent", true,
        (idemCacheKey agent.userId k,
          (RespBody.sendResult freshId "sent", now + 3600)) :: cache⟩ := by
    unfold postMessages
    rw [if_neg hval, if_neg hlen']
    simp [hk, hmiss]
  refine ⟨ho1, ?_, ?_⟩
  · intro now' bridgeUp' sendOk' freshId' hlt
    rw [ho1]
    unfold postMessages
    rw [if_neg hval, if_neg hlen']
    have hhit : cacheGet
        ((idemCacheKey agent.userId k,
          (RespBody.sendResult freshId "sent", now + 3600)) :: cache) now'
        (idemCacheKey agent.userId k) = some (RespBody.sendResult freshId "sent") := by
      unfold cacheGet
      rw [lookup_cons_eq_ite, if_pos rfl]
      simp [hlt]
    simp [hk, hhit]
  · intro t ht
    rw [ho1]
    unfold cacheGet
    rw [lookup_cons_eq_ite, if_pos rfl]
    simp only []
    rw [if_neg (by omega)]

theorem c9_witness :
    cacheGet [] 0 (idemCacheKey aliceAgent.userId "K") = none ∧
    postMessages [] 0 aliceAgent "r1" "hi" (some "K") true true "uuid-1" =
      ⟨201, RespBody.sendResult "uuid-1" "sent", true,
        (idemCacheKey aliceAgent.userId "K",
          (RespBody.sendResult "uuid-1" "sent", 3600)) :: []⟩ ∧
    postMessages
        (postMessages [] 0 aliceAgent "r1" "hi" (some "K") true true "uuid-1").cache
        100 aliceAgent "r1" "hi" (some "K") false false "uuid-2" =
      ⟨200, RespBody.sendResult "uuid-1" "sent", false,
        (postMessages [] 0 aliceAgent "r1" "hi" (some "K") true true "uuid-1").cache⟩ ∧
    cacheGet (postMessages [] 0 aliceAgent "r1" "hi" (some "K") true true "uuid-1").cache
      3600 (idemCacheKey aliceAgent.userId "K") = none :=
  ⟨rfl,
    (c9_idempotency_cache [] 0 aliceAgent "r1" "hi" "K" "uuid-1" (by decide) (by decide)
      (by decide) (by decide) rfl).1,
    (c9_idempotency_cache [] 0 aliceAgent "r1" "hi" "K" "uuid-1" (by decide) (by decide)
      (by decide) (by decide) rfl).2.1 100 false false "uuid-2" (by decide),
    (c9_idempotency_cache [] 0 aliceAgent "r1" "hi" "K" "uuid-1" (by decide) (by decide)
      (by decide) (by decide) rfl).2.2 3600 (by decide)⟩

end Gateway
